import Mathlib

/-
  Verification of the Madurai Makkal civic-engagement app core logic.

  Shallow embedding of the TypeScript sources:
    - src/civic-mobile/src/services/ai.ts        (image identity and pseudo-AI validation)
    - src/civic-mobile/src/services/fraud.ts     (fraud flags, risk score, alerts)
    - src/civic-mobile/src/services/locationEngine.ts  (location capture, part_002)
    - src/civic-mobile/src/data/bins.ts          (reward table, cooldown constant, bins)
    - src/civic-mobile/src/utils/geo.ts          (haversine distance)
    - App.tsx (part_005): applyAction, appendFraudAlerts, addLog, state types (part_004)

  Conventions of the embedding:
    - JavaScript numbers carrying coordinates, accuracies, ages and confidences are
      embedded as rationals; timestamps (ISO strings / Date.now() milliseconds) as Int
      epoch milliseconds; new Date(s).getTime() is the identity on that encoding.
    - The wall clock Date.now() at the moment an action is processed is an explicit
      parameter nowMs of each function that reads it; it is distinct from the
      createdAt timestamps carried inside action payloads.
    - The haversine distance is a real-valued, noncomputable function (defined at the
      end of this file as distanceMeters).  The decision engine applyAction reads the
      distance only through threshold comparisons, so it is parameterized over an
      arbitrary rational-valued distance function dist; every theorem about the engine
      is proved for all dist and therefore holds for any exact decision the
      floating-point haversine produces.
    - Math.random-based identifiers (makeId, coupon codes) are opaque to all engine
      decisions; they are embedded as deterministic functions of the action id.
-/

set_option maxRecDepth 100000

namespace Civic

/-- Pure coordinate pair, from src/types (part_004). -/
structure Coordinates where
  latitude : ℚ
  longitude : ℚ
deriving DecidableEq

inductive BinStatus where
  | available
  | reported_full
  | temporarily_disabled
deriving DecidableEq

/-- Bin registry entry, from src/types.  lastUsedAt and createdAt are epoch ms. -/
structure Bin where
  id : String
  name : String
  qrCodeId : String
  ward : String
  location : Coordinates
  status : BinStatus
  lastUsedAt : Option Int := none
  createdAt : Int
deriving DecidableEq

inductive WasteSizeClass where
  | large
  | medium
  | small
  | home_daily
deriving DecidableEq

inductive WalletEntryType where
  | earn
  | redeem
deriving DecidableEq

inductive WalletSource where
  | ai_disposal_verified
  | first_time_bonus
  | coupon_redemption
  | manual_adjustment
deriving DecidableEq

/-- Append-only wallet ledger entry, from src/types. -/
structure WalletEntry where
  id : String
  type : WalletEntryType
  points : Int
  reason : String
  source : WalletSource
  referenceId : Option String := none
  createdAt : Int
deriving DecidableEq

structure WalletState where
  points : Int
  history : List WalletEntry
deriving DecidableEq

inductive RedemptionStatus where
  | active
  | used
  | expired
deriving DecidableEq

structure RedemptionRecord where
  id : String
  rewardId : String
  rewardTitle : String
  couponCode : String
  pointsUsed : Int
  createdAt : Int
  expiresAt : Int
  status : RedemptionStatus
deriving DecidableEq

inductive FraudAlertType where
  | duplicate_image
  | location_anomaly
  | before_after_mismatch
  | qr_mismatch
  | geo_fence_failure
  | mock_location_detected
  | cooldown_violation
  | location_accuracy_failure
  | timestamp_invalid
deriving DecidableEq

inductive Severity where
  | low
  | medium
  | high
deriving DecidableEq

/-- Alert status; the source string literal open is renamed opened because open is a
Lean keyword. -/
inductive AlertStatus where
  | opened
  | reviewed
  | blocked
deriving DecidableEq

structure FraudAlert where
  id : String
  type : FraudAlertType
  severity : Severity
  message : String
  actionId : String
  riskScore : Nat
  status : AlertStatus
  createdAt : Int
deriving DecidableEq

structure DisposalImageValidation where
  qualityPassed : Bool
  binDetected : Bool
  wasteDetected : Bool
  confidence : ℚ
  failureReason : Option String := none
deriving DecidableEq

/-- Disposal action record, from src/types. -/
structure DisposalRecord where
  id : String
  userId : String
  binId : String
  qrCodeId : String
  photoUri : String
  imageHash : String
  location : Coordinates
  accuracyMeters : ℚ
  createdAt : Int
  distanceMeters : ℚ
  geoVerified : Bool
  qrVerified : Bool
  aiVerified : Bool
  wasteSize : WasteSizeClass
  fraudFlags : List FraudAlertType
  verified : Bool
  pointsAwarded : Int
  rejectionReason : Option String := none
deriving DecidableEq

inductive IssueCategory where
  | roadside_dumping
  | overflowing_bin
  | open_garbage_heap
  | blocked_drain
  | public_area_unclean
deriving DecidableEq

structure CleanupProof where
  id : String
  submittedBy : String
  photoUri : String
  imageHash : String
  location : Coordinates
  accuracyMeters : ℚ
  createdAt : Int
  watermark : String
  distanceFromComplaintMeters : ℚ
  aiCleanVerified : Bool
  fraudFlags : List FraudAlertType
deriving DecidableEq

/-- Complaint status; the source string literal open is renamed opened. -/
inductive ComplaintStatus where
  | opened
  | assigned
  | in_progress
  | resolved
deriving DecidableEq

structure ComplaintVerification where
  verifiedBy : String
  accepted : Bool
  notes : Option String := none
  verifiedAt : Int
deriving DecidableEq

structure Complaint where
  id : String
  userId : String
  category : IssueCategory
  description : String
  photoUri : String
  imageHash : String
  location : Coordinates
  createdAt : Int
  status : ComplaintStatus
  reportFraudFlags : List FraudAlertType
  cleanupProof : Option CleanupProof := none
  resolvedAt : Option Int := none
  verification : Option ComplaintVerification := none
deriving DecidableEq

structure UserLocationSnapshot where
  location : Coordinates
  accuracyMeters : ℚ
  timestamp : Int
deriving DecidableEq

inductive LocationStrength where
  | strong
  | medium
  | weak
  | none
deriving DecidableEq

structure LocationSnapshot where
  location : Coordinates
  accuracyMeters : ℚ
  timestamp : Int
  ageSeconds : ℚ
  isMocked : Bool
  strength : LocationStrength
deriving DecidableEq

/-! String helpers.  JavaScript trim, toLowerCase and includes are embedded
structurally over the character list so that they compute by kernel reduction. -/

/-- JavaScript String.prototype.trim: strip whitespace from both ends. -/
def jsTrim (s : String) : String :=
  String.mk (((s.data.dropWhile Char.isWhitespace).reverse.dropWhile Char.isWhitespace).reverse)

/-- JavaScript String.prototype.toLowerCase (ASCII-faithful). -/
def jsToLower (s : String) : String :=
  String.mk (s.data.map Char.toLower)

/-- Contiguous-occurrence test on character lists. -/
def charsInfix (needle : List Char) : List Char → Bool
  | [] => needle.isEmpty
  | c :: t => needle.isPrefixOf (c :: t) || charsInfix needle t

/-- JavaScript String.prototype.includes. -/
def strIncludes (hay needle : String) : Bool :=
  charsInfix needle.data hay.data

/-! Embedding of src/civic-mobile/src/services/ai.ts. -/

/-- JavaScript ToInt32 (the bitwise-or-zero truncation). -/
def toInt32 (n : Int) : Int :=
  (n + 2 ^ 31) % 2 ^ 32 - 2 ^ 31

/-- One step of hashString: hash = (hash << 5) - hash + charCode, then hash |= 0.
The shift itself is a 32-bit operation in JavaScript. -/
def hashStep (hash : Int) (code : Nat) : Int :=
  toInt32 (toInt32 (hash * 32) - hash + code)

/-- hashString from ai.ts: fold hashStep over the UTF-16 code units (our strings are
ASCII, where code units and code points coincide), then Math.abs. -/
def hashString (value : String) : Nat :=
  (value.data.foldl (fun h c => hashStep h c.toNat) 0).natAbs

/-- Lowercase base-16 digits of n, most significant first (JavaScript toString(16)). -/
def toHex (n : Nat) : String :=
  String.mk (Nat.toDigits 16 n)

/-- imageHash from ai.ts: hex string of the hash, left-padded with 0 to width 8. -/
def imageHash (value : String) : String :=
  String.mk (List.replicate (8 - (toHex (hashString value)).length) '0') ++ toHex (hashString value)

structure QualityCheckResult where
  ok : Bool
  reason : Option String := none
deriving DecidableEq

/-- qualityCheck from ai.ts. -/
def qualityCheck (photoUri : String) : QualityCheckResult :=
  if photoUri.data.length < 10 then
    ⟨false, some ("Image capture failed. Please retake.")⟩
  else
    let uri := jsToLower photoUri
    if strIncludes uri ("screenshot") || strIncludes uri ("screenrecord") then
      ⟨false, some ("Screenshot-like image rejected. Use live camera only.")⟩
    else if photoUri.data.length % 17 == 0 then
      ⟨false, some ("Image is blurry. Please retake.")⟩
    else
      ⟨true, none⟩

/-- validateDisposalImage from ai.ts.  The source confidence 0.6 + (seed % 40)/100 is
written as the single rational (60 + seed % 40)/100 via mkRat so that it computes by
kernel reduction; mkRat_confidence_source_form below proves the two forms equal.  The
confidence always has exactly two decimal places and is at most 0.99, so the source
toFixed(2) rounding is the identity and only the min with 0.98 is kept. -/
def validateDisposalImage (photoUri qrCodeId : String) : DisposalImageValidation :=
  let quality := qualityCheck photoUri
  if quality.ok = false then
    { qualityPassed := false, binDetected := false, wasteDetected := false,
      confidence := 0, failureReason := quality.reason }
  else
    let seed := hashString (photoUri ++ ":" ++ qrCodeId)
    let confidence : ℚ := mkRat (60 + (seed % 40 : Nat)) 100
    let binDetected : Bool := decide (confidence > mkRat 62 100)
    let wasteDetected : Bool := decide (confidence > mkRat 68 100)
    let failureReason : Option String :=
      if binDetected = false then some ("Dustbin not detected.")
      else if wasteDetected = false then some ("Waste not detected.")
      else none
    { qualityPassed := true, binDetected, wasteDetected,
      confidence := min confidence (mkRat 98 100), failureReason }

/-- The mkRat rendering of the confidence equals the source expression
0.6 + (seed % 40)/100. -/
theorem mkRat_confidence_source_form (k : Nat) :
    (mkRat (60 + (k : Int)) 100 : ℚ) = 6 / 10 + (k : ℚ) / 100 := by
  rw [Rat.mkRat_eq_divInt, Rat.divInt_eq_div]
  push_cast
  ring

/-- The mkRat renderings of the source decimal literals 0.62, 0.68 and 0.98. -/
theorem mkRat_threshold_source_form :
    (mkRat 62 100 : ℚ) = 0.62 ∧ (mkRat 68 100 : ℚ) = 0.68 ∧ (mkRat 98 100 : ℚ) = 0.98 := by
  refine ⟨?_, ?_, ?_⟩ <;> rw [Rat.mkRat_eq_divInt, Rat.divInt_eq_div] <;> norm_num

/-- validateCleanupConsistency from ai.ts: true when the two contents hash differently. -/
def validateCleanupConsistency (beforeUri afterUri : String) : Bool :=
  imageHash beforeUri != imageHash afterUri

/-! Embedding of src/civic-mobile/src/services/fraud.ts. -/

/-- The source literal 33.33 (about 120 km/h), rendered via mkRat. -/
def LOCATION_SPEED_THRESHOLD_METERS_PER_SECOND : ℚ := mkRat 3333 100

def LOCATION_JUMP_THRESHOLD_METERS : ℚ := 2000

/-- The mkRat rendering of the speed threshold equals the source literal. -/
theorem speed_threshold_source_form : LOCATION_SPEED_THRESHOLD_METERS_PER_SECOND = 33.33 := by
  unfold LOCATION_SPEED_THRESHOLD_METERS_PER_SECOND
  rw [Rat.mkRat_eq_divInt, Rat.divInt_eq_div]
  norm_num

/-- isDuplicateImage from fraud.ts: membership in the used-hash list. -/
def isDuplicateImage (usedImageHashes : List String) (hash : String) : Bool :=
  usedImageHashes.contains hash

/-- isLocationAnomaly from fraud.ts, parameterized over the distance function
(the source calls distanceMeters from utils/geo.ts). -/
def isLocationAnomaly (dist : Coordinates → Coordinates → ℚ)
    (previous : Option UserLocationSnapshot) (currentLocation : Coordinates)
    (currentTimestampMs : Int) : Bool :=
  match previous with
  | none => false
  | some prev =>
    let elapsedSeconds : ℚ := max (((currentTimestampMs - prev.timestamp : Int) : ℚ) / 1000) 1
    let travelDistance := dist prev.location currentLocation
    let speed := travelDistance / elapsedSeconds
    decide (speed > LOCATION_SPEED_THRESHOLD_METERS_PER_SECOND) ||
      decide (travelDistance > LOCATION_JUMP_THRESHOLD_METERS)

/-- Source string name of a flag kind, used in the alert id template. -/
def fraudTypeName : FraudAlertType → String
  | .duplicate_image => "duplicate_image"
  | .location_anomaly => "location_anomaly"
  | .before_after_mismatch => "before_after_mismatch"
  | .qr_mismatch => "qr_mismatch"
  | .geo_fence_failure => "geo_fence_failure"
  | .mock_location_detected => "mock_location_detected"
  | .cooldown_violation => "cooldown_violation"
  | .location_accuracy_failure => "location_accuracy_failure"
  | .timestamp_invalid => "timestamp_invalid"

/-- makeFraudAlert from fraud.ts: status is blocked when riskScore is at least 80. -/
def makeFraudAlert (type : FraudAlertType) (actionId message : String)
    (severity : Severity) (createdAt : Int) (riskScore : Nat) : FraudAlert :=
  { id := "fraud-" ++ actionId ++ "-" ++ fraudTypeName type
    type, severity, message, actionId
    status := if riskScore ≥ 80 then .blocked else .opened
    createdAt, riskScore }

/-- TYPE_SCORE from fraud.ts: fixed per-kind weights. -/
def TYPE_SCORE : FraudAlertType → Nat
  | .duplicate_image => 40
  | .location_anomaly => 50
  | .before_after_mismatch => 45
  | .qr_mismatch => 20
  | .geo_fence_failure => 50
  | .mock_location_detected => 50
  | .cooldown_violation => 30
  | .location_accuracy_failure => 20
  | .timestamp_invalid => 20

/-- fraudRiskScore from fraud.ts: reduce with + over the weights, seed 0. -/
def fraudRiskScore (types : List FraudAlertType) : Nat :=
  types.foldl (fun sum item => sum + TYPE_SCORE item) 0

/-! Embedding of src/civic-mobile/src/services/locationEngine.ts (part_002). -/

def PREFERRED_ACCURACY_METERS : ℚ := 5

def MAX_ALLOWED_ACCURACY_METERS : ℚ := 10

def MAX_LOCATION_AGE_SECONDS : ℚ := 30

/-- resolveStrength from locationEngine.ts. -/
def resolveStrength (accuracyMeters : ℚ) : LocationStrength :=
  if accuracyMeters ≤ PREFERRED_ACCURACY_METERS then .strong
  else if accuracyMeters ≤ MAX_ALLOWED_ACCURACY_METERS then .medium
  else if accuracyMeters ≤ 40 then .weak
  else .none

/-- The raw device fix obtained by Location.getCurrentPositionAsync: coordinates,
optional accuracy, optional numeric timestamp, and the mocked flag. -/
structure RawPosition where
  latitude : ℚ
  longitude : ℚ
  accuracy : Option ℚ := none
  timestampMs : Option Int := none
  mocked : Bool := false
deriving DecidableEq

structure LocationResult where
  snapshot : Option LocationSnapshot := none
  error : Option String := none
deriving DecidableEq

/-- getHighAccuracyLocation from locationEngine.ts: the device call is modelled by the
input fix; granted is the outcome of requestLocationPermission and nowMs is Date.now(). -/
def getHighAccuracyLocation (granted : Bool) (position : RawPosition)
    (nowMs : Int) : LocationResult :=
  if granted = false then
    { error := some ("Location access is required to continue.") }
  else
    let timestampMs := position.timestampMs.getD nowMs
    let accuracyMeters : ℚ := max (position.accuracy.getD 999) 0
    let ageSeconds : ℚ := max (mkRat (nowMs - timestampMs) 1000) 0
    let snapshot : LocationSnapshot :=
      { location := ⟨position.latitude, position.longitude⟩
        accuracyMeters, timestamp := timestampMs, ageSeconds
        isMocked := position.mocked
        strength := resolveStrength accuracyMeters }
    if snapshot.isMocked then
      { error := some ("Fake GPS detected. Action blocked.") }
    else if snapshot.accuracyMeters > MAX_ALLOWED_ACCURACY_METERS then
      { snapshot := some snapshot
        error := some ("Move to an open area for better GPS accuracy.") }
    else
      { snapshot := some snapshot }

/-- The mkRat rendering of ageSeconds equals the source (nowMs - timestampMs)/1000. -/
theorem mkRat_age_source_form (n : Int) : (mkRat n 1000 : ℚ) = (n : ℚ) / 1000 := by
  rw [Rat.mkRat_eq_divInt, Rat.divInt_eq_div]
  norm_num

/-- isLocationFresh from locationEngine.ts. -/
def isLocationFresh (snapshot : LocationSnapshot) : Bool :=
  decide (snapshot.ageSeconds ≤ MAX_LOCATION_AGE_SECONDS)

/-! Embedding of src/civic-mobile/src/data/bins.ts. -/

def FIRST_TIME_USER_BONUS_POINTS : Int := 50

/-- REGULAR_REWARD_POINTS from bins.ts. -/
def REGULAR_REWARD_POINTS : WasteSizeClass → Int
  | .large => 20
  | .medium => 10
  | .small => 3
  | .home_daily => 0

def DISPOSAL_COOLDOWN_HOURS : Int := 2

/-- MADURAI_BINS from bins.ts; the module-level creation instant is embedded as 0. -/
def MADURAI_BINS : List Bin :=
  [ { id := "bin-001", qrCodeId := "MMC-BIN-001", name := "Periyar Bus Stand Bin Hub"
      ward := "Ward 12", location := ⟨9.9166, 78.1194⟩, status := .available, createdAt := 0 }
  , { id := "bin-002", qrCodeId := "MMC-BIN-002", name := "Goripalayam Smart Bin"
      ward := "Ward 23", location := ⟨9.9324, 78.1306⟩, status := .available, createdAt := 0 }
  , { id := "bin-003", qrCodeId := "MMC-BIN-003", name := "KK Nagar Community Bin"
      ward := "Ward 38", location := ⟨9.8912, 78.1331⟩, status := .available, createdAt := 0 }
  , { id := "bin-004", qrCodeId := "MMC-BIN-004", name := "Mattuthavani Transport Hub Bin"
      ward := "Ward 45", location := ⟨9.9287, 78.1482⟩, status := .available, createdAt := 0 }
  , { id := "bin-005", qrCodeId := "MMC-BIN-005", name := "Simmakkal Riverfront Bin"
      ward := "Ward 9", location := ⟨9.9255, 78.1144⟩, status := .available, createdAt := 0 } ]

/-! The application state and the action vocabulary, from src/types (part_004). -/

structure DisposePayload where
  binId : String
  qrCodeId : String
  photoUri : String
  wasteSize : WasteSizeClass
  location : LocationSnapshot
  userId : String
  createdAt : Int
deriving DecidableEq

structure ReportIssuePayload where
  category : IssueCategory
  description : String
  photoUri : String
  location : LocationSnapshot
  userId : String
  createdAt : Int
deriving DecidableEq

structure ReportBinFullPayload where
  binId : String
  reason : String
deriving DecidableEq

structure SubmitCleanupPayload where
  complaintId : String
  photoUri : String
  location : LocationSnapshot
  userId : String
  createdAt : Int
deriving DecidableEq

structure VerifyCleanupPayload where
  complaintId : String
  accepted : Bool
  notes : Option String := none
  verifiedBy : String
  createdAt : Int
deriving DecidableEq

structure RedeemRewardPayload where
  rewardId : String
  rewardTitle : String
  pointsRequired : Int
  createdAt : Int
deriving DecidableEq

/-- The six action kinds with their typed payloads (the source pairs a string
discriminant with an untyped payload record). -/
inductive PendingPayload where
  | dispose (p : DisposePayload)
  | report_issue (p : ReportIssuePayload)
  | report_bin_full (p : ReportBinFullPayload)
  | submit_cleanup (p : SubmitCleanupPayload)
  | verify_cleanup (p : VerifyCleanupPayload)
  | redeem_reward (p : RedeemRewardPayload)
deriving DecidableEq

structure PendingAction where
  id : String
  payload : PendingPayload
  createdAt : Int
deriving DecidableEq

structure AppState where
  isOnline : Bool
  bins : List Bin
  disposals : List DisposalRecord
  complaints : List Complaint
  wallet : WalletState
  redemptions : List RedemptionRecord
  fraudAlerts : List FraudAlert
  pendingActions : List PendingAction
  usedImageHashes : List String
  lastActionByUser : List (String × UserLocationSnapshot)
  syncLog : List String
deriving DecidableEq

/-- DEFAULT_STATE from App.tsx (part_005). -/
def DEFAULT_STATE : AppState :=
  { isOnline := true, bins := MADURAI_BINS, disposals := [], complaints := []
    wallet := { points := 0, history := [] }, redemptions := [], fraudAlerts := []
    pendingActions := [], usedImageHashes := [], lastActionByUser := [], syncLog := [] }

/-! Engine helpers from App.tsx (part_005). -/

/-- FRAUD_SEVERITY from App.tsx. -/
def FRAUD_SEVERITY : FraudAlertType → Severity
  | .duplicate_image => .high
  | .location_anomaly => .high
  | .before_after_mismatch => .high
  | .qr_mismatch => .medium
  | .geo_fence_failure => .high
  | .mock_location_detected => .high
  | .cooldown_violation => .medium
  | .location_accuracy_failure => .medium
  | .timestamp_invalid => .medium

/-- The log line prefix new Date().toLocaleTimeString() is embedded as the decimal
rendering of the wall clock. -/
def logLine (nowMs : Int) (message : String) : String :=
  toString nowMs ++ " - " ++ message

/-- addLog from App.tsx: prepend the stamped message, keep the newest 40 lines. -/
def addLog (nowMs : Int) (state : AppState) (message : String) : AppState :=
  { state with syncLog := ((logLine nowMs message) :: state.syncLog).take 40 }

/-- makeId draws from Math.random; entry identifiers never feed any decision, so they
are embedded deterministically from the enclosing action id. -/
def makeWalletId (actionId : String) (k : Nat) : String :=
  "wallet-" ++ actionId ++ "-" ++ toString k

/-- createCouponCode draws two random segments; embedded deterministically from the
action id (the engine never branches on coupon codes). -/
def createCouponCode (actionId : String) : String :=
  "CLEANMADURAI-" ++ actionId

/-- toUserSnapshot from App.tsx. -/
def toUserSnapshot (snapshot : LocationSnapshot) : UserLocationSnapshot :=
  ⟨snapshot.location, snapshot.accuracyMeters, snapshot.timestamp⟩

/-- The spread-update of the Record<string, UserLocationSnapshot> map: prepending the
new binding shadows any previous one under List.lookup. -/
def setUserSnapshot (m : List (String × UserLocationSnapshot)) (userId : String)
    (snap : UserLocationSnapshot) : List (String × UserLocationSnapshot) :=
  (userId, snap) :: m

/-- The imperative conditional flag push: one optional singleton segment. -/
def flagIf (b : Bool) (t : FraudAlertType) : List FraudAlertType :=
  if b then [t] else []

/-- Replace the element found by findIndex (the first complaint with this id). -/
def replaceFirstComplaint (id : String) (newC : Complaint) :
    List Complaint → List Complaint
  | [] => []
  | c :: t => if c.id == id then newC :: t else c :: replaceFirstComplaint id newC t

/-- The per-flag message record of the dispose branch. -/
def disposeMessages : FraudAlertType → String
  | .duplicate_image => "Duplicate image detected."
  | .location_anomaly => "Frequent location jump detected."
  | .before_after_mismatch => "Before/after mismatch detected."
  | .qr_mismatch => "QR does not match selected bin."
  | .geo_fence_failure => "Geo-fence validation failed."
  | .mock_location_detected => "Fake GPS detected. Action blocked."
  | .cooldown_violation => "Bin cooldown policy violated."
  | .location_accuracy_failure => "GPS accuracy above allowed threshold."
  | .timestamp_invalid => "Location timestamp is too old."

/-- The per-flag message record of the report_issue branch. -/
def reportMessages : FraudAlertType → String
  | .duplicate_image => "Complaint image is reused."
  | .location_anomaly => "Complaint submitted from suspicious movement pattern."
  | .before_after_mismatch => "Before/after mismatch detected."
  | .qr_mismatch => "QR mismatch detected."
  | .geo_fence_failure => "Geo-fence failure detected."
  | .mock_location_detected => "Fake GPS detected in complaint report."
  | .cooldown_violation => "Action frequency exceeded."
  | .location_accuracy_failure => "Low GPS accuracy in complaint report."
  | .timestamp_invalid => "Complaint location timestamp is stale."

/-- The per-flag message record of the submit_cleanup branch. -/
def cleanupMessages : FraudAlertType → String
  | .duplicate_image => "Cleanup image is reused."
  | .location_anomaly => "Cleanup location anomaly detected."
  | .before_after_mismatch => "Cleanup proof appears identical to complaint image."
  | .qr_mismatch => "QR mismatch detected."
  | .geo_fence_failure => "Cleanup proof submitted outside complaint perimeter."
  | .mock_location_detected => "Fake GPS detected in cleanup proof."
  | .cooldown_violation => "Action frequency exceeded."
  | .location_accuracy_failure => "Low GPS accuracy in cleanup proof."
  | .timestamp_invalid => "Cleanup location timestamp is stale."

/-- appendFraudAlerts from App.tsx: one alert per flag kind, every alert carrying the
combined risk score of all the action flags. -/
def appendFraudAlerts (nowMs : Int) (state : AppState) (actionId : String)
    (types : List FraudAlertType) (messages : FraudAlertType → String) : AppState :=
  if types.isEmpty then state
  else
    let score := fraudRiskScore types
    let alerts := types.map fun type =>
      makeFraudAlert type actionId (messages type) (FRAUD_SEVERITY type) nowMs score
    { state with fraudAlerts := alerts ++ state.fraudAlerts }

/-- Source string name of a waste size class (used in the ledger entry reason). -/
def wasteSizeName : WasteSizeClass → String
  | .large => "large"
  | .medium => "medium"
  | .small => "small"
  | .home_daily => "home_daily"

/-- The isFirstSuccessful test of the dispose branch: no prior verified disposal by
this user in the state. -/
def hasNoPriorVerifiedDisposal (state : AppState) (userId : String) : Bool :=
  state.disposals.all fun item => !(item.userId == userId && item.verified)

/-! The dispose branch of applyAction (part_005, lines 562-725), with each source
let-binding lifted to a named definition so the theorems below can speak about the
intermediate quantities directly. -/

/-- qrVerified: payload.qrCodeId.trim() === bin.qrCodeId. -/
def disposeQrVerified (p : DisposePayload) (bin : Bin) : Bool :=
  jsTrim p.qrCodeId == bin.qrCodeId

/-- locationAgeTooOld: snapshot age above MAX_LOCATION_AGE_SECONDS. -/
def disposeLocationAgeTooOld (p : DisposePayload) : Bool :=
  decide (p.location.ageSeconds > MAX_LOCATION_AGE_SECONDS)

/-- lowAccuracy: snapshot accuracy above MAX_ALLOWED_ACCURACY_METERS. -/
def disposeLowAccuracy (p : DisposePayload) : Bool :=
  decide (p.location.accuracyMeters > MAX_ALLOWED_ACCURACY_METERS)

/-- geoVerified: within 5 m, fresh, accurate, and not mocked. -/
def disposeGeoVerified (dist : Coordinates → Coordinates → ℚ)
    (p : DisposePayload) (bin : Bin) : Bool :=
  decide (dist p.location.location bin.location ≤ 5) &&
    !disposeLocationAgeTooOld p && !disposeLowAccuracy p && !p.location.isMocked

/-- aiVerified: quality passed and both object classes detected. -/
def disposeAiVerified (p : DisposePayload) : Bool :=
  (validateDisposalImage p.photoUri p.qrCodeId).qualityPassed &&
    (validateDisposalImage p.photoUri p.qrCodeId).binDetected &&
    (validateDisposalImage p.photoUri p.qrCodeId).wasteDetected

/-- cooldownViolation: some recorded disposal of the same user at the same bin with
creation timestamp above Date.now() minus the cooldown window. -/
def disposeCooldownViolation (nowMs : Int) (state : AppState) (p : DisposePayload) : Bool :=
  state.disposals.any fun item =>
    item.userId == p.userId && item.binId == p.binId &&
      decide (item.createdAt > nowMs - DISPOSAL_COOLDOWN_HOURS * 60 * 60 * 1000)

/-- The eight conditional flag pushes of the dispose branch, in source order. -/
def disposeFlags (dist : Coordinates → Coordinates → ℚ) (nowMs : Int)
    (state : AppState) (p : DisposePayload) (bin : Bin) : List FraudAlertType :=
  flagIf (!disposeQrVerified p bin) .qr_mismatch ++
  flagIf (!disposeGeoVerified dist p bin) .geo_fence_failure ++
  flagIf p.location.isMocked .mock_location_detected ++
  flagIf (isDuplicateImage state.usedImageHashes (imageHash p.photoUri)) .duplicate_image ++
  flagIf (isLocationAnomaly dist (List.lookup p.userId state.lastActionByUser)
    p.location.location p.createdAt) .location_anomaly ++
  flagIf (disposeCooldownViolation nowMs state p) .cooldown_violation ++
  flagIf (disposeLowAccuracy p) .location_accuracy_failure ++
  flagIf (disposeLocationAgeTooOld p) .timestamp_invalid

/-- verified: bin available, QR, geo and AI checks pass, and no fraud flag. -/
def disposeVerified (dist : Coordinates → Coordinates → ℚ) (nowMs : Int)
    (state : AppState) (p : DisposePayload) (bin : Bin) : Bool :=
  bin.status == .available && disposeQrVerified p bin && disposeGeoVerified dist p bin &&
    disposeAiVerified p && (disposeFlags dist nowMs state p bin).isEmpty

/-- basePoints: the size-table reward when verified, else 0. -/
def disposeBasePoints (dist : Coordinates → Coordinates → ℚ) (nowMs : Int)
    (state : AppState) (p : DisposePayload) (bin : Bin) : Int :=
  if disposeVerified dist nowMs state p bin then REGULAR_REWARD_POINTS p.wasteSize else 0

/-- bonusPoints: the one-time bonus when verified and no prior verified disposal. -/
def disposeBonusPoints (dist : Coordinates → Coordinates → ℚ) (nowMs : Int)
    (state : AppState) (p : DisposePayload) (bin : Bin) : Int :=
  if disposeVerified dist nowMs state p bin && hasNoPriorVerifiedDisposal state p.userId then
    FIRST_TIME_USER_BONUS_POINTS
  else 0

/-- The DisposalRecord assembled by the dispose branch. -/
def disposeRecord (dist : Coordinates → Coordinates → ℚ) (nowMs : Int)
    (state : AppState) (actionId : String) (p : DisposePayload) (bin : Bin) : DisposalRecord :=
  { id := actionId, userId := p.userId, binId := p.binId
    qrCodeId := p.qrCodeId, photoUri := p.photoUri, imageHash := imageHash p.photoUri
    location := p.location.location, accuracyMeters := p.location.accuracyMeters
    createdAt := p.createdAt, distanceMeters := dist p.location.location bin.location
    geoVerified := disposeGeoVerified dist p bin
    qrVerified := disposeQrVerified p bin
    aiVerified := disposeAiVerified p
    wasteSize := p.wasteSize
    fraudFlags := disposeFlags dist nowMs state p bin
    verified := disposeVerified dist nowMs state p bin
    pointsAwarded := disposeBasePoints dist nowMs state p bin + disposeBonusPoints dist nowMs state p bin
    rejectionReason :=
      if disposeVerified dist nowMs state p bin then none
      else some ((validateDisposalImage p.photoUri p.qrCodeId).failureReason.getD ("Validation failed")) }

/-- applyAction from App.tsx (part_005, lines 560-992): the pure state transition of
the verification and reward engine.  dist stands for utils/geo.ts distanceMeters
(see the file header); nowMs is Date.now() at processing time. -/
def applyAction (dist : Coordinates → Coordinates → ℚ) (nowMs : Int)
    (state : AppState) (action : PendingAction) : AppState :=
  match action.payload with
  | .dispose payload =>
    match state.bins.find? (fun item => item.id == payload.binId) with
    | none => addLog nowMs state ("Disposal " ++ action.id ++ " failed: selected bin not found.")
    | some bin =>
      let disposal := disposeRecord dist nowMs state action.id payload bin
      let duplicate := isDuplicateImage state.usedImageHashes (imageHash payload.photoUri)
      let next1 : AppState :=
        { state with
          disposals := disposal :: state.disposals
          usedImageHashes :=
            if duplicate then state.usedImageHashes
            else imageHash payload.photoUri :: state.usedImageHashes
          lastActionByUser := setUserSnapshot state.lastActionByUser payload.userId (toUserSnapshot payload.location)
          bins := state.bins.map fun item =>
            if item.id == payload.binId && disposal.verified then { item with lastUsedAt := some payload.createdAt }
            else item }
      let next2 : AppState :=
        if disposal.pointsAwarded > 0 then
          let entries : List WalletEntry :=
            { id := makeWalletId action.id 0, type := .earn
              points := disposeBasePoints dist nowMs state payload bin
              reason := "AI verified " ++ wasteSizeName payload.wasteSize ++ " waste disposal"
              source := .ai_disposal_verified
              referenceId := some action.id, createdAt := payload.createdAt } ::
            (if disposeBonusPoints dist nowMs state payload bin > 0 then
              [ { id := makeWalletId action.id 1, type := .earn
                  points := disposeBonusPoints dist nowMs state payload bin
                  reason := "First successful disposal bonus", source := .first_time_bonus
                  referenceId := some action.id, createdAt := payload.createdAt } ]
             else [])
          { next1 with wallet :=
              { points := next1.wallet.points + disposal.pointsAwarded
                history := entries ++ next1.wallet.history } }
        else next1
      let next3 := appendFraudAlerts nowMs next2 action.id disposal.fraudFlags disposeMessages
      addLog nowMs next3
        (if disposal.verified then
          "Disposal " ++ action.id ++ " verified. " ++ toString disposal.pointsAwarded ++ " points credited."
         else "Disposal " ++ action.id ++ " rejected. " ++ disposal.rejectionReason.getD ("Validation failed."))
  | .report_issue payload =>
    let imgHash := imageHash payload.photoUri
    let duplicate := isDuplicateImage state.usedImageHashes imgHash
    let anomaly := isLocationAnomaly dist
      (List.lookup payload.userId state.lastActionByUser) payload.location.location payload.createdAt
    let fraudFlags : List FraudAlertType :=
      flagIf duplicate .duplicate_image ++
      flagIf anomaly .location_anomaly ++
      flagIf payload.location.isMocked .mock_location_detected ++
      flagIf (decide (payload.location.accuracyMeters > MAX_ALLOWED_ACCURACY_METERS)) .location_accuracy_failure ++
      flagIf (decide (payload.location.ageSeconds > MAX_LOCATION_AGE_SECONDS)) .timestamp_invalid
    let complaint : Complaint :=
      { id := action.id, userId := payload.userId, category := payload.category
        description := payload.description, photoUri := payload.photoUri, imageHash := imgHash
        location := payload.location.location, createdAt := payload.createdAt
        status := .opened, reportFraudFlags := fraudFlags }
    let next1 : AppState :=
      { state with
        complaints := complaint :: state.complaints
        usedImageHashes := if duplicate then state.usedImageHashes else imgHash :: state.usedImageHashes
        lastActionByUser := setUserSnapshot state.lastActionByUser payload.userId (toUserSnapshot payload.location) }
    let next2 := appendFraudAlerts nowMs next1 action.id fraudFlags reportMessages
    addLog nowMs next2 ("Complaint " ++ action.id ++ " submitted with geo-tag evidence.")
  | .report_bin_full payload =>
    let next : AppState :=
      { state with bins := state.bins.map fun item =>
          if item.id == payload.binId then { item with status := .reported_full } else item }
    addLog nowMs next ("Bin " ++ payload.binId ++ " marked as reported full.")
  | .submit_cleanup payload =>
    match state.complaints.find? (fun item => item.id == payload.complaintId) with
    | none => addLog nowMs state ("Cleanup " ++ action.id ++ " failed. Complaint not found.")
    | some complaint =>
      let distance := dist payload.location.location complaint.location
      let geoOk : Bool :=
        decide (distance ≤ 10) &&
        decide (payload.location.accuracyMeters ≤ MAX_ALLOWED_ACCURACY_METERS) &&
        decide (payload.location.ageSeconds ≤ MAX_LOCATION_AGE_SECONDS) &&
        !payload.location.isMocked
      let imgHash := imageHash payload.photoUri
      let duplicate := isDuplicateImage state.usedImageHashes imgHash
      let beforeAfterMismatch := !validateCleanupConsistency complaint.photoUri payload.photoUri
      let fraudFlags : List FraudAlertType :=
        flagIf (!geoOk) .geo_fence_failure ++
        flagIf duplicate .duplicate_image ++
        flagIf beforeAfterMismatch .before_after_mismatch ++
        flagIf payload.location.isMocked .mock_location_detected ++
        flagIf (decide (payload.location.accuracyMeters > MAX_ALLOWED_ACCURACY_METERS)) .location_accuracy_failure ++
        flagIf (decide (payload.location.ageSeconds > MAX_LOCATION_AGE_SECONDS)) .timestamp_invalid
      let proof : CleanupProof :=
        { id := action.id, submittedBy := payload.userId, photoUri := payload.photoUri
          imageHash := imgHash, location := payload.location.location
          accuracyMeters := payload.location.accuracyMeters, createdAt := payload.createdAt
          watermark := toString payload.createdAt ++ " @ " ++
            toString payload.location.location.latitude ++ ", " ++
            toString payload.location.location.longitude ++ " | complaint:" ++ payload.complaintId
          distanceFromComplaintMeters := distance
          aiCleanVerified := !beforeAfterMismatch, fraudFlags }
      let updated := replaceFirstComplaint payload.complaintId
        { complaint with
          status := if geoOk then .in_progress else complaint.status
          cleanupProof := some proof } state.complaints
      let next1 : AppState :=
        { state with
          complaints := updated
          usedImageHashes := if duplicate then state.usedImageHashes else imgHash :: state.usedImageHashes
          lastActionByUser := setUserSnapshot state.lastActionByUser payload.userId (toUserSnapshot payload.location) }
      let next2 := appendFraudAlerts nowMs next1 action.id fraudFlags cleanupMessages
      addLog nowMs next2
        (if geoOk then "Cleanup proof submitted for " ++ payload.complaintId ++ "."
         else "Cleanup proof rejected for " ++ payload.complaintId ++ ".")
  | .verify_cleanup payload =>
    match state.complaints.find? (fun item => item.id == payload.complaintId) with
    | none => addLog nowMs state ("Verification " ++ action.id ++ " failed. Complaint not found.")
    | some complaint =>
      let nextComplaints := replaceFirstComplaint payload.complaintId
        { complaint with
          status := if payload.accepted then .resolved else .opened
          resolvedAt := if payload.accepted then some payload.createdAt else none
          verification := some
            { accepted := payload.accepted, notes := payload.notes
              verifiedBy := payload.verifiedBy, verifiedAt := payload.createdAt } } state.complaints
      addLog nowMs { state with complaints := nextComplaints }
        (if payload.accepted then "Complaint " ++ payload.complaintId ++ " resolved."
         else "Complaint " ++ payload.complaintId ++ " reopened.")
  | .redeem_reward payload =>
    if state.wallet.points < payload.pointsRequired then
      addLog nowMs state ("Redemption blocked: insufficient points.")
    else
      let expiresAt := nowMs + 14 * 24 * 60 * 60 * 1000
      let redemption : RedemptionRecord :=
        { id := action.id, rewardId := payload.rewardId, rewardTitle := payload.rewardTitle
          couponCode := createCouponCode action.id, pointsUsed := payload.pointsRequired
          status := .active, createdAt := payload.createdAt, expiresAt }
      let walletEntry : WalletEntry :=
        { id := makeWalletId action.id 0, type := .redeem, points := payload.pointsRequired
          reason := "Redeemed " ++ payload.rewardTitle, source := .coupon_redemption
          referenceId := some action.id, createdAt := payload.createdAt }
      addLog nowMs
        { state with
          redemptions := redemption :: state.redemptions
          wallet :=
            { points := state.wallet.points - payload.pointsRequired
              history := walletEntry :: state.wallet.history } }
        ("Redeemed " ++ payload.rewardTitle ++ ". Coupon generated.")

/-- Sequential processing of a list of actions, each with its own wall-clock instant. -/
def applyActions (dist : Coordinates → Coordinates → ℚ)
    (steps : List (Int × PendingAction)) (start : AppState) : AppState :=
  steps.foldl (fun s step => applyAction dist step.1 s step.2) start

/-! Embedding of src/civic-mobile/src/utils/geo.ts.  Math.sin, Math.cos, Math.atan2
and Math.sqrt are embedded as the exact real functions. -/

noncomputable def toRadians (value : ℝ) : ℝ :=
  value * Real.pi / 180

/-- JavaScript Math.atan2(y, x) by the standard case analysis. -/
noncomputable def atan2 (y x : ℝ) : ℝ :=
  if 0 < x then Real.arctan (y / x)
  else if x < 0 then
    (if 0 ≤ y then Real.arctan (y / x) + Real.pi else Real.arctan (y / x) - Real.pi)
  else if 0 < y then Real.pi / 2
  else if y < 0 then -(Real.pi / 2)
  else 0

/-- The haversine intermediate a of distanceMeters, kept in the source operand order. -/
noncomputable def haversineA (p q : Coordinates) : ℝ :=
  Real.sin (toRadians ((q.latitude : ℝ) - (p.latitude : ℝ)) / 2) *
    Real.sin (toRadians ((q.latitude : ℝ) - (p.latitude : ℝ)) / 2) +
  Real.sin (toRadians ((q.longitude : ℝ) - (p.longitude : ℝ)) / 2) *
    Real.sin (toRadians ((q.longitude : ℝ) - (p.longitude : ℝ)) / 2) *
    Real.cos (toRadians (p.latitude : ℝ)) *
    Real.cos (toRadians (q.latitude : ℝ))

def EARTH_RADIUS_METERS : ℝ := 6371000

/-- distanceMeters from utils/geo.ts: haversine distance with Earth radius 6371000 m. -/
noncomputable def distanceMeters (p q : Coordinates) : ℝ :=
  EARTH_RADIUS_METERS *
    (2 * atan2 (Real.sqrt (haversineA p q)) (Real.sqrt (1 - haversineA p q)))

/-! Projection helper lemmas: addLog touches only syncLog, appendFraudAlerts touches
only fraudAlerts. -/

theorem addLog_disposals (n : Int) (s : AppState) (m : String) :
    (addLog n s m).disposals = s.disposals := rfl

theorem addLog_wallet (n : Int) (s : AppState) (m : String) :
    (addLog n s m).wallet = s.wallet := rfl

theorem addLog_usedImageHashes (n : Int) (s : AppState) (m : String) :
    (addLog n s m).usedImageHashes = s.usedImageHashes := rfl

theorem addLog_redemptions (n : Int) (s : AppState) (m : String) :
    (addLog n s m).redemptions = s.redemptions := rfl

theorem addLog_complaints (n : Int) (s : AppState) (m : String) :
    (addLog n s m).complaints = s.complaints := rfl

theorem addLog_syncLog (n : Int) (s : AppState) (m : String) :
    (addLog n s m).syncLog = (logLine n m :: s.syncLog).take 40 := rfl

theorem appendFraudAlerts_disposals (n : Int) (s : AppState) (a : String)
    (ts : List FraudAlertType) (ms : FraudAlertType → String) :
    (appendFraudAlerts n s a ts ms).disposals = s.disposals := by
  unfold appendFraudAlerts; split <;> rfl

theorem appendFraudAlerts_wallet (n : Int) (s : AppState) (a : String)
    (ts : List FraudAlertType) (ms : FraudAlertType → String) :
    (appendFraudAlerts n s a ts ms).wallet = s.wallet := by
  unfold appendFraudAlerts; split <;> rfl

theorem appendFraudAlerts_usedImageHashes (n : Int) (s : AppState) (a : String)
    (ts : List FraudAlertType) (ms : FraudAlertType → String) :
    (appendFraudAlerts n s a ts ms).usedImageHashes = s.usedImageHashes := by
  unfold appendFraudAlerts; split <;> rfl

theorem appendFraudAlerts_redemptions (n : Int) (s : AppState) (a : String)
    (ts : List FraudAlertType) (ms : FraudAlertType → String) :
    (appendFraudAlerts n s a ts ms).redemptions = s.redemptions := by
  unfold appendFraudAlerts; split <;> rfl

theorem appendFraudAlerts_complaints (n : Int) (s : AppState) (a : String)
    (ts : List FraudAlertType) (ms : FraudAlertType → String) :
    (appendFraudAlerts n s a ts ms).complaints = s.complaints := by
  unfold appendFraudAlerts; split <;> rfl

/-- foldl over + starting anywhere is the start plus the mapped sum. -/
theorem foldl_add_TYPE_SCORE (init : Nat) (l : List FraudAlertType) :
    l.foldl (fun sum item => sum + TYPE_SCORE item) init = init + (l.map TYPE_SCORE).sum := by
  induction l generalizing init with
  | nil => simp
  | cons h t ih => simp [List.foldl_cons, ih, Nat.add_assoc]

/-- C3: riskScore of the empty list is 0; riskScore is the sum of the fixed per-kind
weights (duplicate_image=40, location_anomaly=50, before_after_mismatch=45,
qr_mismatch=20, geo_fence_failure=50, mock_location_detected=50,
cooldown_violation=30, location_accuracy_failure=20, timestamp_invalid=20) with no
cap at 100 (witnessed by a three-flag list scoring 150); and an alert built with risk
score s is blocked if and only if s is at least 80, otherwise open. -/
theorem fraudRiskScore_sum_and_block_threshold :
    fraudRiskScore [] = 0 ∧
    (∀ types : List FraudAlertType, fraudRiskScore types = (types.map TYPE_SCORE).sum) ∧
    fraudRiskScore [.location_anomaly, .geo_fence_failure, .mock_location_detected] = 150 ∧
    (∀ (t : FraudAlertType) (aid msg : String) (sev : Severity) (created : Int) (score : Nat),
      ((makeFraudAlert t aid msg sev created score).status = .blocked ↔ 80 ≤ score) ∧
      ((makeFraudAlert t aid msg sev created score).status = .opened ↔ score < 80)) := by
  refine ⟨rfl, ?_, by decide, ?_⟩
  · intro types
    simpa using foldl_add_TYPE_SCORE 0 types
  · intro t aid msg sev created score
    unfold makeFraudAlert
    constructor
    · constructor
      · intro h
        by_contra hlt
        simp only [if_neg hlt] at h
        exact AlertStatus.noConfusion h
      · intro h; simp [h]
    · constructor
      · intro h
        by_contra hge
        simp only [Nat.not_lt] at hge
        simp only [if_pos hge] at h
        exact AlertStatus.noConfusion h
      · intro h
        have : ¬ score ≥ 80 := by omega
        simp [this]

/-- C10: every fraud alert appended for an action carries the combined risk score of
all of that action flags (not the weight of its own kind), hence all alerts of one
action share one status: blocked exactly when the combined score reaches 80, open
otherwise. -/
theorem appendFraudAlerts_uniform_risk (nowMs : Int) (s : AppState) (aid : String)
    (types : List FraudAlertType) (messages : FraudAlertType → String) :
    ∀ alert ∈ (appendFraudAlerts nowMs s aid types messages).fraudAlerts,
      alert ∈ s.fraudAlerts ∨
        (alert.riskScore = fraudRiskScore types ∧
          (alert.status = .blocked ↔ 80 ≤ fraudRiskScore types) ∧
          (alert.status = .opened ↔ fraudRiskScore types < 80)) := by
  intro alert h
  unfold appendFraudAlerts at h
  split at h
  · exact .inl h
  · simp only [List.mem_append, List.mem_map] at h
    rcases h with ⟨t, _, rfl⟩ | h
    · right
      refine ⟨rfl, ?_, ?_⟩
      · unfold makeFraudAlert
        constructor
        · intro hb
          by_contra hlt
          simp only [if_neg hlt] at hb
          exact AlertStatus.noConfusion hb
        · intro hge; simp [hge]
      · unfold makeFraudAlert
        constructor
        · intro ho
          by_contra hge
          simp only [Nat.not_lt] at hge
          simp only [if_pos hge] at ho
          exact AlertStatus.noConfusion ho
        · intro hlt
          have : ¬ fraudRiskScore types ≥ 80 := by omega
          simp [this]
    · exact .inl h

def wTypes10 : List FraudAlertType := [.qr_mismatch, .geo_fence_failure, .mock_location_detected]

def wAlert10 : FraudAlert :=
  makeFraudAlert .qr_mismatch ("act-1") (disposeMessages .qr_mismatch)
    (FRAUD_SEVERITY .qr_mismatch) 0 (fraudRiskScore wTypes10)

/-- Witness for C10 at a concrete input: the qr_mismatch alert of a 120-point action
is already blocked. -/
theorem appendFraudAlerts_uniform_risk_witness :
    wAlert10 ∈ (appendFraudAlerts 0 DEFAULT_STATE ("act-1") wTypes10 disposeMessages).fraudAlerts ∧
    (wAlert10 ∈ DEFAULT_STATE.fraudAlerts ∨
      (wAlert10.riskScore = fraudRiskScore wTypes10 ∧
        (wAlert10.status = .blocked ↔ 80 ≤ fraudRiskScore wTypes10) ∧
        (wAlert10.status = .opened ↔ fraudRiskScore wTypes10 < 80))) :=
  ⟨by decide,
    appendFraudAlerts_uniform_risk 0 DEFAULT_STATE ("act-1") wTypes10 disposeMessages
      wAlert10 (by decide)⟩

/-! Shape lemmas for the dispose branch. -/

theorem disposeRecord_verified (dist : Coordinates → Coordinates → ℚ) (nowMs : Int)
    (state : AppState) (aid : String) (p : DisposePayload) (bin : Bin) :
    (disposeRecord dist nowMs state aid p bin).verified = disposeVerified dist nowMs state p bin := rfl

theorem disposeRecord_pointsAwarded (dist : Coordinates → Coordinates → ℚ) (nowMs : Int)
    (state : AppState) (aid : String) (p : DisposePayload) (bin : Bin) :
    (disposeRecord dist nowMs state aid p bin).pointsAwarded =
      disposeBasePoints dist nowMs state p bin + disposeBonusPoints dist nowMs state p bin := rfl

theorem disposeRecord_fraudFlags (dist : Coordinates → Coordinates → ℚ) (nowMs : Int)
    (state : AppState) (aid : String) (p : DisposePayload) (bin : Bin) :
    (disposeRecord dist nowMs state aid p bin).fraudFlags = disposeFlags dist nowMs state p bin := rfl

theorem applyAction_dispose_disposals (dist : Coordinates → Coordinates → ℚ) (nowMs : Int)
    (state : AppState) (aid : String) (p : DisposePayload) (ca : Int) (bin : Bin)
    (hbin : state.bins.find? (fun item => item.id == p.binId) = some bin) :
    (applyAction dist nowMs state ⟨aid, .dispose p, ca⟩).disposals =
      disposeRecord dist nowMs state aid p bin :: state.disposals := by
  simp only [applyAction, hbin, addLog_disposals, appendFraudAlerts_disposals]
  split <;> rfl

/-- C1: when the bin id resolves, the created DisposalRecord has verified true iff
the bin status is available and the qr, geo and ai checks passed and the record
fraud-flag list is empty; in particular a reported_full bin never yields a verified
disposal. -/
theorem dispose_verified_iff_checks (dist : Coordinates → Coordinates → ℚ) (nowMs : Int)
    (state : AppState) (aid : String) (p : DisposePayload) (ca : Int) (bin : Bin)
    (hbin : state.bins.find? (fun item => item.id == p.binId) = some bin) :
    ∃ rec, (applyAction dist nowMs state ⟨aid, .dispose p, ca⟩).disposals.head? = some rec ∧
      (rec.verified = true ↔ (bin.status = .available ∧ rec.qrVerified = true ∧
        rec.geoVerified = true ∧ rec.aiVerified = true ∧ rec.fraudFlags = [])) ∧
      (bin.status = .reported_full → rec.verified = false) := by
  refine ⟨disposeRecord dist nowMs state aid p bin, ?_, ?_, ?_⟩
  · rw [applyAction_dispose_disposals dist nowMs state aid p ca bin hbin]
    rfl
  · show disposeVerified dist nowMs state p bin = true ↔ _
    unfold disposeVerified
    simp only [Bool.and_eq_true, beq_iff_eq, List.isEmpty_iff]
    show _ ↔ (bin.status = .available ∧ disposeQrVerified p bin = true ∧
      disposeGeoVerified dist p bin = true ∧ disposeAiVerified p = true ∧
      disposeFlags dist nowMs state p bin = [])
    tauto
  · intro h
    show disposeVerified dist nowMs state p bin = false
    unfold disposeVerified
    rw [h]
    rfl

/-! Concrete data used by the witnesses: a clean disposal scenario. -/

def wDist : Coordinates → Coordinates → ℚ := fun _ _ => 0

def wBin : Bin :=
  { id := "bin-001", qrCodeId := "MMC-BIN-001", name := "Periyar Bus Stand Bin Hub"
    ward := "Ward 12", location := ⟨0, 0⟩, status := .available, createdAt := 0 }

def wSnapshot : LocationSnapshot :=
  { location := ⟨0, 0⟩, accuracyMeters := 2, timestamp := 1000, ageSeconds := 1
    isMocked := false, strength := .strong }

def wDisposeP : DisposePayload :=
  { binId := "bin-001", qrCodeId := "MMC-BIN-001", photoUri := "file:camera-live-0042.jpg"
    wasteSize := .medium, location := wSnapshot, userId := "user-1", createdAt := 1000 }

def wState : AppState := { DEFAULT_STATE with bins := [wBin] }

/-- Witness for C1 at the concrete clean-disposal scenario. -/
theorem dispose_verified_iff_checks_witness :
    wState.bins.find? (fun item => item.id == wDisposeP.binId) = some wBin ∧
    (∃ rec, (applyAction wDist 1000 wState ⟨"act-d1", .dispose wDisposeP, 1000⟩).disposals.head? = some rec ∧
      (rec.verified = true ↔ (wBin.status = .available ∧ rec.qrVerified = true ∧
        rec.geoVerified = true ∧ rec.aiVerified = true ∧ rec.fraudFlags = [])) ∧
      (wBin.status = .reported_full → rec.verified = false)) :=
  ⟨by decide, dispose_verified_iff_checks wDist 1000 wState ("act-d1") wDisposeP 1000 wBin (by decide)⟩

/-- C2: when the record is verified, pointsAwarded is the REGULAR_REWARD_POINTS
table value for the waste size plus a one-time 50-point bonus exactly when the user
has no prior verified disposal; when not verified, pointsAwarded is 0; and when both
base and bonus apply, exactly two separate earn ledger entries are prepended. -/
theorem dispose_reward_points (dist : Coordinates → Coordinates → ℚ) (nowMs : Int)
    (state : AppState) (aid : String) (p : DisposePayload) (ca : Int) (bin : Bin)
    (hbin : state.bins.find? (fun item => item.id == p.binId) = some bin) :
    ∃ rec, (applyAction dist nowMs state ⟨aid, .dispose p, ca⟩).disposals.head? = some rec ∧
      (rec.verified = true →
        rec.pointsAwarded = REGULAR_REWARD_POINTS p.wasteSize +
          (if hasNoPriorVerifiedDisposal state p.userId then FIRST_TIME_USER_BONUS_POINTS else 0)) ∧
      (rec.verified = false → rec.pointsAwarded = 0) ∧
      (rec.verified = true → hasNoPriorVerifiedDisposal state p.userId = true →
        0 < REGULAR_REWARD_POINTS p.wasteSize →
        ∃ e1 e2, (applyAction dist nowMs state ⟨aid, .dispose p, ca⟩).wallet.history =
            e1 :: e2 :: state.wallet.history ∧
          e1.type = .earn ∧ e1.points = REGULAR_REWARD_POINTS p.wasteSize ∧
          e2.type = .earn ∧ e2.points = FIRST_TIME_USER_BONUS_POINTS) := by
  refine ⟨disposeRecord dist nowMs state aid p bin, ?_, ?_, ?_, ?_⟩
  · rw [applyAction_dispose_disposals dist nowMs state aid p ca bin hbin]
    rfl
  · intro hv
    rw [disposeRecord_verified] at hv
    rw [disposeRecord_pointsAwarded]
    unfold disposeBasePoints disposeBonusPoints
    rw [hv]
    simp only [Bool.true_and, if_true]
  · intro hv
    rw [disposeRecord_verified] at hv
    rw [disposeRecord_pointsAwarded]
    unfold disposeBasePoints disposeBonusPoints
    rw [hv]
    simp
  · intro hv hf hbase
    rw [disposeRecord_verified] at hv
    have hb : disposeBasePoints dist nowMs state p bin = REGULAR_REWARD_POINTS p.wasteSize := by
      unfold disposeBasePoints; rw [hv]; rfl
    have hbo : disposeBonusPoints dist nowMs state p bin = FIRST_TIME_USER_BONUS_POINTS := by
      unfold disposeBonusPoints; rw [hv, hf]; rfl
    have hpa : (disposeRecord dist nowMs state aid p bin).pointsAwarded > 0 := by
      rw [disposeRecord_pointsAwarded, hb, hbo]
      unfold FIRST_TIME_USER_BONUS_POINTS
      omega
    have hbo' : disposeBonusPoints dist nowMs state p bin > 0 := by
      rw [hbo]; unfold FIRST_TIME_USER_BONUS_POINTS; omega
    simp only [applyAction, hbin, addLog_wallet, appendFraudAlerts_wallet]
    rw [if_pos hpa, if_pos hbo']
    exact ⟨_, _, rfl, rfl, hb, rfl, hbo⟩

/-- Witness for C2 at the concrete clean-disposal scenario. -/
theorem dispose_reward_points_witness :
    wState.bins.find? (fun item => item.id == wDisposeP.binId) = some wBin ∧
    (∃ rec, (applyAction wDist 1000 wState ⟨"act-d2", .dispose wDisposeP, 1000⟩).disposals.head? = some rec ∧
      (rec.verified = true →
        rec.pointsAwarded = REGULAR_REWARD_POINTS wDisposeP.wasteSize +
          (if hasNoPriorVerifiedDisposal wState wDisposeP.userId then FIRST_TIME_USER_BONUS_POINTS else 0)) ∧
      (rec.verified = false → rec.pointsAwarded = 0) ∧
      (rec.verified = true → hasNoPriorVerifiedDisposal wState wDisposeP.userId = true →
        0 < REGULAR_REWARD_POINTS wDisposeP.wasteSize →
        ∃ e1 e2, (applyAction wDist 1000 wState ⟨"act-d2", .dispose wDisposeP, 1000⟩).wallet.history =
            e1 :: e2 :: wState.wallet.history ∧
          e1.type = .earn ∧ e1.points = REGULAR_REWARD_POINTS wDisposeP.wasteSize ∧
          e2.type = .earn ∧ e2.points = FIRST_TIME_USER_BONUS_POINTS)) :=
  ⟨by decide, dispose_reward_points wDist 1000 wState ("act-d2") wDisposeP 1000 wBin (by decide)⟩

/-- Membership in one conditional flag segment. -/
theorem mem_flagIf {s t : FraudAlertType} {b : Bool} : s ∈ flagIf b t ↔ b = true ∧ s = t := by
  unfold flagIf
  split <;> simp_all

/-- C5 (amended): the cooldown_violation flag is raised iff the same user has some
recorded disposal at the same bin whose creation timestamp is within the 2-hour
window measured back from the wall clock at processing time (Date.now()), not from
the new action own createdAt; prior verification status is irrelevant and the
comparison has no upper bound. -/
theorem dispose_cooldown_window (dist : Coordinates → Coordinates → ℚ) (nowMs : Int)
    (state : AppState) (aid : String) (p : DisposePayload) (ca : Int) (bin : Bin)
    (hbin : state.bins.find? (fun item => item.id == p.binId) = some bin) :
    ∃ rec, (applyAction dist nowMs state ⟨aid, .dispose p, ca⟩).disposals.head? = some rec ∧
      (FraudAlertType.cooldown_violation ∈ rec.fraudFlags ↔
        ∃ d ∈ state.disposals, d.userId = p.userId ∧ d.binId = p.binId ∧
          nowMs - DISPOSAL_COOLDOWN_HOURS * 60 * 60 * 1000 < d.createdAt) := by
  refine ⟨disposeRecord dist nowMs state aid p bin, ?_, ?_⟩
  · rw [applyAction_dispose_disposals dist nowMs state aid p ca bin hbin]
    rfl
  · rw [disposeRecord_fraudFlags]
    unfold disposeFlags
    simp only [List.mem_append, mem_flagIf]
    simp only [reduceCtorEq, and_false, false_or, or_false, and_true]
    unfold disposeCooldownViolation
    simp only [List.any_eq_true, Bool.and_eq_true, beq_iff_eq, decide_eq_true_eq]
    constructor
    · rintro ⟨d, hd, ⟨h1, h2⟩, h3⟩
      exact ⟨d, hd, h1, h2, h3⟩
    · rintro ⟨d, hd, h1, h2, h3⟩
      exact ⟨d, hd, ⟨h1, h2⟩, h3⟩

/-- Witness for C5 at the concrete clean-disposal scenario. -/
theorem dispose_cooldown_window_witness :
    wState.bins.find? (fun item => item.id == wDisposeP.binId) = some wBin ∧
    (∃ rec, (applyAction wDist 1000 wState ⟨"act-c5w", .dispose wDisposeP, 1000⟩).disposals.head? = some rec ∧
      (FraudAlertType.cooldown_violation ∈ rec.fraudFlags ↔
        ∃ d ∈ wState.disposals, d.userId = wDisposeP.userId ∧ d.binId = wDisposeP.binId ∧
          1000 - DISPOSAL_COOLDOWN_HOURS * 60 * 60 * 1000 < d.createdAt)) :=
  ⟨by decide, dispose_cooldown_window wDist 1000 wState ("act-c5w") wDisposeP 1000 wBin (by decide)⟩

/-- Head flag list of the most recent disposal, for concrete evaluation. -/
def firstDisposalFlags (s : AppState) : List FraudAlertType :=
  match s.disposals with
  | [] => []
  | d :: _ => d.fraudFlags

/-- A prior disposal by user-1 at bin-001 created at epoch instant 0. -/
def cexDisposal5 : DisposalRecord :=
  { id := "disp-0", userId := "user-1", binId := "bin-001", qrCodeId := "MMC-BIN-001"
    photoUri := "file:camera-live-0001.jpg", imageHash := imageHash ("file:camera-live-0001.jpg")
    location := ⟨0, 0⟩, accuracyMeters := 2, createdAt := 0, distanceMeters := 0
    geoVerified := true, qrVerified := true, aiVerified := true, wasteSize := .medium
    fraudFlags := [], verified := false, pointsAwarded := 0, rejectionReason := none }

def cexState5 : AppState := { wState with disposals := [cexDisposal5] }

/-- A new dispose action created one hour after the prior disposal. -/
def cexP5 : DisposePayload := { wDisposeP with createdAt := 3600000 }

/-- Counterexample to C5 as stated: processed at wall clock 14400000 ms (4 h), the
new action whose createdAt is 3600000 ms (1 h) has a prior same-user same-bin
disposal inside the 2-hour window before its creation timestamp, yet the code raises
no cooldown_violation flag, because the code measures the window from Date.now(). -/
theorem dispose_cooldown_claim_counterexample :
    FraudAlertType.cooldown_violation ∉
      firstDisposalFlags (applyAction wDist 14400000 cexState5 ⟨"act-c5", .dispose cexP5, 3600000⟩) ∧
    (applyAction wDist 14400000 cexState5 ⟨"act-c5", .dispose cexP5, 3600000⟩).disposals.length =
      cexState5.disposals.length + 1 ∧
    (∃ d ∈ cexState5.disposals, d.userId = cexP5.userId ∧ d.binId = cexP5.binId ∧
      cexP5.createdAt - DISPOSAL_COOLDOWN_HOURS * 60 * 60 * 1000 < d.createdAt ∧
      d.createdAt ≤ cexP5.createdAt) := by
  decide

/-- C4: redeeming with insufficient balance leaves the wallet and the redemption
list unchanged and logs the insufficient-points message; otherwise exactly
pointsRequired is debited, exactly one redeem ledger entry of pointsRequired points
is prepended, and exactly one active RedemptionRecord expiring 14 days after the
processing instant is prepended. -/
theorem redeem_reward_rule (dist : Coordinates → Coordinates → ℚ) (nowMs : Int)
    (state : AppState) (aid : String) (p : RedeemRewardPayload) (ca : Int) :
    (state.wallet.points < p.pointsRequired →
      (applyAction dist nowMs state ⟨aid, .redeem_reward p, ca⟩).wallet = state.wallet ∧
      (applyAction dist nowMs state ⟨aid, .redeem_reward p, ca⟩).redemptions = state.redemptions ∧
      (applyAction dist nowMs state ⟨aid, .redeem_reward p, ca⟩).syncLog.head? =
        some (logLine nowMs ("Redemption blocked: insufficient points."))) ∧
    (p.pointsRequired ≤ state.wallet.points →
      (applyAction dist nowMs state ⟨aid, .redeem_reward p, ca⟩).wallet.points =
        state.wallet.points - p.pointsRequired ∧
      (∃ entry, (applyAction dist nowMs state ⟨aid, .redeem_reward p, ca⟩).wallet.history =
          entry :: state.wallet.history ∧
        entry.type = .redeem ∧ entry.points = p.pointsRequired) ∧
      (∃ r, (applyAction dist nowMs state ⟨aid, .redeem_reward p, ca⟩).redemptions =
          r :: state.redemptions ∧
        r.status = .active ∧ r.pointsUsed = p.pointsRequired ∧
        r.expiresAt = nowMs + 14 * 24 * 60 * 60 * 1000)) := by
  constructor
  · intro h
    simp only [applyAction, if_pos h, addLog_wallet, addLog_redemptions, addLog_syncLog]
    simp [List.take_succ_cons]
  · intro h
    have h' : ¬ state.wallet.points < p.pointsRequired := not_lt.mpr h
    simp only [applyAction, if_neg h', addLog_wallet, addLog_redemptions]
    exact ⟨trivial, ⟨_, rfl, rfl, rfl⟩, ⟨_, rfl, rfl, rfl, rfl⟩⟩

/-- A wallet seeded with 70 points, as in the spec redemption scenario. -/
def wState4 : AppState :=
  { DEFAULT_STATE with wallet :=
    { points := 70
      history := [ { id := "w-seed", type := .earn, points := 70, reason := "seed"
                     source := .manual_adjustment, createdAt := 0 } ] } }

def wRedeemP : RedeemRewardPayload :=
  { rewardId := "MOBILE_RECHARGE_25", rewardTitle := "INR25 Mobile Recharge Coupon"
    pointsRequired := 50, createdAt := 2000 }

/-- Witness for C4: balance 70 redeeming a 50-point reward. -/
theorem redeem_reward_rule_witness :
    wRedeemP.pointsRequired ≤ wState4.wallet.points ∧
    ((applyAction wDist 2000 wState4 ⟨"act-r1", .redeem_reward wRedeemP, 2000⟩).wallet.points =
        wState4.wallet.points - wRedeemP.pointsRequired ∧
      (∃ entry, (applyAction wDist 2000 wState4 ⟨"act-r1", .redeem_reward wRedeemP, 2000⟩).wallet.history =
          entry :: wState4.wallet.history ∧
        entry.type = .redeem ∧ entry.points = wRedeemP.pointsRequired) ∧
      (∃ r, (applyAction wDist 2000 wState4 ⟨"act-r1", .redeem_reward wRedeemP, 2000⟩).redemptions =
          r :: wState4.redemptions ∧
        r.status = .active ∧ r.pointsUsed = wRedeemP.pointsRequired ∧
        r.expiresAt = 2000 + 14 * 24 * 60 * 60 * 1000)) :=
  ⟨by decide,
    (redeem_reward_rule wDist 2000 wState4 ("act-r1") wRedeemP 2000).2 (by decide)⟩

/-- C6: for dispose, report_issue and submit_cleanup (with the bin and the complaint
resolving), the submitted photo content hash is prepended to the used-hash set
exactly when it was not flagged duplicate (i.e. not already present, which is what
the duplicate flag tests), and the set is unchanged when it was already present —
independently of whether the submission was verified or accepted. -/
theorem usedImageHashes_growth (dist : Coordinates → Coordinates → ℚ) (nowMs : Int)
    (state : AppState) (aid1 aid2 aid3 : String) (ca : Int)
    (pd : DisposePayload) (pr : ReportIssuePayload) (pc : SubmitCleanupPayload)
    (bin : Bin) (complaint : Complaint)
    (hbin : state.bins.find? (fun item => item.id == pd.binId) = some bin)
    (hcomp : state.complaints.find? (fun item => item.id == pc.complaintId) = some complaint) :
    (∀ (hashes : List String) (hsh : String), isDuplicateImage hashes hsh = true ↔ hsh ∈ hashes) ∧
    (isDuplicateImage state.usedImageHashes (imageHash pd.photoUri) = true →
      (applyAction dist nowMs state ⟨aid1, .dispose pd, ca⟩).usedImageHashes = state.usedImageHashes) ∧
    (isDuplicateImage state.usedImageHashes (imageHash pd.photoUri) = false →
      (applyAction dist nowMs state ⟨aid1, .dispose pd, ca⟩).usedImageHashes =
        imageHash pd.photoUri :: state.usedImageHashes) ∧
    (isDuplicateImage state.usedImageHashes (imageHash pr.photoUri) = true →
      (applyAction dist nowMs state ⟨aid2, .report_issue pr, ca⟩).usedImageHashes = state.usedImageHashes) ∧
    (isDuplicateImage state.usedImageHashes (imageHash pr.photoUri) = false →
      (applyAction dist nowMs state ⟨aid2, .report_issue pr, ca⟩).usedImageHashes =
        imageHash pr.photoUri :: state.usedImageHashes) ∧
    (isDuplicateImage state.usedImageHashes (imageHash pc.photoUri) = true →
      (applyAction dist nowMs state ⟨aid3, .submit_cleanup pc, ca⟩).usedImageHashes = state.usedImageHashes) ∧
    (isDuplicateImage state.usedImageHashes (imageHash pc.photoUri) = false →
      (applyAction dist nowMs state ⟨aid3, .submit_cleanup pc, ca⟩).usedImageHashes =
        imageHash pc.photoUri :: state.usedImageHashes) := by
  refine ⟨?_, ?_, ?_, ?_, ?_, ?_, ?_⟩
  · intro hashes hsh
    simp [isDuplicateImage]
  · intro hdup
    simp only [applyAction, hbin, addLog_usedImageHashes, appendFraudAlerts_usedImageHashes]
    split <;> simp [hdup]
  · intro hdup
    simp only [applyAction, hbin, addLog_usedImageHashes, appendFraudAlerts_usedImageHashes]
    split <;> simp [hdup]
  · intro hdup
    simp only [applyAction, addLog_usedImageHashes, appendFraudAlerts_usedImageHashes]
    simp [hdup]
  · intro hdup
    simp only [applyAction, addLog_usedImageHashes, appendFraudAlerts_usedImageHashes]
    simp [hdup]
  · intro hdup
    simp only [applyAction, hcomp, addLog_usedImageHashes, appendFraudAlerts_usedImageHashes]
    simp [hdup]
  · intro hdup
    simp only [applyAction, hcomp, addLog_usedImageHashes, appendFraudAlerts_usedImageHashes]
    simp [hdup]

def wComplaint : Complaint :=
  { id := "comp-1", userId := "user-2", category := .roadside_dumping
    description := "Garbage heap near market", photoUri := "file:camera-live-0007.jpg"
    imageHash := imageHash ("file:camera-live-0007.jpg"), location := ⟨0, 0⟩
    createdAt := 500, status := .opened, reportFraudFlags := [] }

def wState6 : AppState := { wState with complaints := [wComplaint] }

def wReportP : ReportIssuePayload :=
  { category := .overflowing_bin, description := "Bin overflowing", photoUri := "file:camera-live-0043.jpg"
    location := wSnapshot, userId := "user-1", createdAt := 1000 }

def wCleanupP : SubmitCleanupPayload :=
  { complaintId := "comp-1", photoUri := "file:camera-live-0044.jpg"
    location := wSnapshot, userId := "worker-1", createdAt := 1500 }

/-- Witness for C6 at the concrete scenario with one registered bin and one complaint. -/
theorem usedImageHashes_growth_witness :
    wState6.bins.find? (fun item => item.id == wDisposeP.binId) = some wBin ∧
    wState6.complaints.find? (fun item => item.id == wCleanupP.complaintId) = some wComplaint ∧
    ((∀ (hashes : List String) (hsh : String), isDuplicateImage hashes hsh = true ↔ hsh ∈ hashes) ∧
    (isDuplicateImage wState6.usedImageHashes (imageHash wDisposeP.photoUri) = true →
      (applyAction wDist 1000 wState6 ⟨"a1", .dispose wDisposeP, 1000⟩).usedImageHashes = wState6.usedImageHashes) ∧
    (isDuplicateImage wState6.usedImageHashes (imageHash wDisposeP.photoUri) = false →
      (applyAction wDist 1000 wState6 ⟨"a1", .dispose wDisposeP, 1000⟩).usedImageHashes =
        imageHash wDisposeP.photoUri :: wState6.usedImageHashes) ∧
    (isDuplicateImage wState6.usedImageHashes (imageHash wReportP.photoUri) = true →
      (applyAction wDist 1000 wState6 ⟨"a2", .report_issue wReportP, 1000⟩).usedImageHashes = wState6.usedImageHashes) ∧
    (isDuplicateImage wState6.usedImageHashes (imageHash wReportP.photoUri) = false →
      (applyAction wDist 1000 wState6 ⟨"a2", .report_issue wReportP, 1000⟩).usedImageHashes =
        imageHash wReportP.photoUri :: wState6.usedImageHashes) ∧
    (isDuplicateImage wState6.usedImageHashes (imageHash wCleanupP.photoUri) = true →
      (applyAction wDist 1000 wState6 ⟨"a3", .submit_cleanup wCleanupP, 1000⟩).usedImageHashes = wState6.usedImageHashes) ∧
    (isDuplicateImage wState6.usedImageHashes (imageHash wCleanupP.photoUri) = false →
      (applyAction wDist 1000 wState6 ⟨"a3", .submit_cleanup wCleanupP, 1000⟩).usedImageHashes =
        imageHash wCleanupP.photoUri :: wState6.usedImageHashes)) :=
  ⟨by decide, by decide,
    usedImageHashes_growth wDist 1000 wState6 ("a1") ("a2") ("a3") 1000
      wDisposeP wReportP wCleanupP wBin wComplaint (by decide) (by decide)⟩

/-- The signed fold of the ledger named by the spec: earn points added, redeem
points subtracted. -/
def signedLedgerSum (h : List WalletEntry) : Int :=
  ((h.filter fun e => e.type == .earn).map WalletEntry.points).sum -
  ((h.filter fun e => e.type == .redeem).map WalletEntry.points).sum

theorem signedLedgerSum_cons (e : WalletEntry) (h : List WalletEntry) :
    signedLedgerSum (e :: h) =
      (match e.type with | .earn => e.points | .redeem => -e.points) + signedLedgerSum h := by
  unfold signedLedgerSum
  cases he : e.type <;> simp [List.filter_cons, he] <;> ring

theorem signedLedgerSum_append (l₁ l₂ : List WalletEntry) :
    signedLedgerSum (l₁ ++ l₂) = signedLedgerSum l₁ + signedLedgerSum l₂ := by
  unfold signedLedgerSum
  simp [List.filter_append]
  ring

theorem disposeBonusPoints_nonneg (dist : Coordinates → Coordinates → ℚ) (nowMs : Int)
    (state : AppState) (p : DisposePayload) (bin : Bin) :
    0 ≤ disposeBonusPoints dist nowMs state p bin := by
  unfold disposeBonusPoints FIRST_TIME_USER_BONUS_POINTS
  split <;> norm_num

/-- One step of the C7 invariant: every action preserves balance = signed fold. -/
theorem applyAction_preserves_ledger_inv (dist : Coordinates → Coordinates → ℚ)
    (nowMs : Int) (s : AppState) (a : PendingAction)
    (h : s.wallet.points = signedLedgerSum s.wallet.history) :
    (applyAction dist nowMs s a).wallet.points =
      signedLedgerSum (applyAction dist nowMs s a).wallet.history := by
  obtain ⟨aid, pl, ca⟩ := a
  cases pl with
  | dispose p =>
    cases hfind : s.bins.find? (fun item => item.id == p.binId) with
    | none =>
      simp only [applyAction, hfind, addLog_wallet]
      exact h
    | some bin =>
      simp only [applyAction, hfind, addLog_wallet, appendFraudAlerts_wallet]
      split
      · rename_i hpa
        rw [disposeRecord_pointsAwarded] at hpa ⊢
        by_cases hb : disposeBonusPoints dist nowMs s p bin > 0
        · rw [if_pos hb]
          dsimp only
          rw [signedLedgerSum_append, signedLedgerSum_cons, signedLedgerSum_cons]
          dsimp only
          rw [h]
          unfold signedLedgerSum
          simp
          ring
        · have hb0 : disposeBonusPoints dist nowMs s p bin = 0 := by
            have := disposeBonusPoints_nonneg dist nowMs s p bin
            omega
          rw [if_neg hb]
          dsimp only
          rw [signedLedgerSum_append, signedLedgerSum_cons]
          dsimp only
          rw [h, hb0]
          unfold signedLedgerSum
          simp
          ring
      · exact h
  | report_issue p =>
    simp only [applyAction, addLog_wallet, appendFraudAlerts_wallet]
    exact h
  | report_bin_full p =>
    simp only [applyAction, addLog_wallet]
    exact h
  | submit_cleanup p =>
    cases hfind : s.complaints.find? (fun item => item.id == p.complaintId) with
    | none =>
      simp only [applyAction, hfind, addLog_wallet]
      exact h
    | some c =>
      simp only [applyAction, hfind, addLog_wallet, appendFraudAlerts_wallet]
      exact h
  | verify_cleanup p =>
    cases hfind : s.complaints.find? (fun item => item.id == p.complaintId) with
    | none =>
      simp only [applyAction, hfind, addLog_wallet]
      exact h
    | some c =>
      simp only [applyAction, hfind, addLog_wallet]
      exact h
  | redeem_reward p =>
    by_cases hlt : s.wallet.points < p.pointsRequired
    · simp only [applyAction, if_pos hlt, addLog_wallet]
      exact h
    · simp only [applyAction, if_neg hlt, addLog_wallet]
      rw [signedLedgerSum_cons]
      dsimp only
      rw [h]
      ring

/-- C7: in every state reachable from the initial state by any action sequence, the
wallet balance equals the signed fold of the ledger history: sum of earn entry
points minus sum of redeem entry points. -/
theorem wallet_balance_is_ledger_fold (dist : Coordinates → Coordinates → ℚ)
    (steps : List (Int × PendingAction)) :
    (applyActions dist steps DEFAULT_STATE).wallet.points =
      signedLedgerSum (applyActions dist steps DEFAULT_STATE).wallet.history := by
  suffices h : ∀ s : AppState, s.wallet.points = signedLedgerSum s.wallet.history →
      (applyActions dist steps s).wallet.points =
        signedLedgerSum (applyActions dist steps s).wallet.history by
    exact h DEFAULT_STATE rfl
  induction steps with
  | nil => intro s hs; exact hs
  | cons st t ih =>
    intro s hs
    exact ih _ (applyAction_preserves_ledger_inv dist st.1 s st.2 hs)

/-- C8 (amended): with permission granted, a mocked fix is rejected outright with an
error and no snapshot; a non-mocked fix always returns the snapshot, with the
advisory error surfaced exactly when accuracy exceeds the 10 m ceiling — the age of
the fix surfaces no advisory from this function (freshness is checked later by the
engine rules). -/
theorem getHighAccuracyLocation_rule (position : RawPosition) (nowMs : Int) :
    (position.mocked = true →
      (getHighAccuracyLocation true position nowMs).snapshot = none ∧
      (getHighAccuracyLocation true position nowMs).error =
        some ("Fake GPS detected. Action blocked.")) ∧
    (position.mocked = false →
      ∃ snap, (getHighAccuracyLocation true position nowMs).snapshot = some snap ∧
        snap.accuracyMeters = max (position.accuracy.getD 999) 0 ∧
        snap.ageSeconds = max (mkRat (nowMs - position.timestampMs.getD nowMs) 1000) 0 ∧
        (snap.accuracyMeters > MAX_ALLOWED_ACCURACY_METERS →
          (getHighAccuracyLocation true position nowMs).error =
            some ("Move to an open area for better GPS accuracy.")) ∧
        (snap.accuracyMeters ≤ MAX_ALLOWED_ACCURACY_METERS →
          (getHighAccuracyLocation true position nowMs).error = none)) := by
  constructor
  · intro hm
    simp [getHighAccuracyLocation, hm]
  · intro hm
    by_cases hacc : max (position.accuracy.getD 999) 0 > MAX_ALLOWED_ACCURACY_METERS
    · simp only [getHighAccuracyLocation, hm]
      rw [if_neg (by simp), if_neg (by simp [hm]), if_pos hacc]
      exact ⟨_, rfl, rfl, rfl, fun _ => rfl, fun hle => absurd hacc (not_lt.mpr hle)⟩
    · simp only [getHighAccuracyLocation, hm]
      rw [if_neg (by simp), if_neg (by simp [hm]), if_neg hacc]
      exact ⟨_, rfl, rfl, rfl, fun hgt => absurd hgt hacc, fun _ => rfl⟩

/-- A clean 5 m fix taken at epoch 0, observed at 60 s wall clock: 60 s old. -/
def cexPos8 : RawPosition :=
  { latitude := 9, longitude := 78, accuracy := some 5, timestampMs := some 0, mocked := false }

/-- Counterexample to C8 as stated: the fix is 60 s old (above the 30 s limit), yet
the function returns the snapshot with no advisory error at all — the source only
surfaces an advisory for accuracy, never for age. -/
theorem location_age_advisory_counterexample :
    (getHighAccuracyLocation true cexPos8 60000).error = none ∧
    (getHighAccuracyLocation true cexPos8 60000).snapshot.isSome = true ∧
    ((getHighAccuracyLocation true cexPos8 60000).snapshot.map LocationSnapshot.ageSeconds).getD 0 >
      MAX_LOCATION_AGE_SECONDS := by
  decide

def wPosMock : RawPosition :=
  { latitude := 9, longitude := 78, accuracy := some 5, timestampMs := some 0, mocked := true }

/-- Witness for C8 at a mocked fix and at the stale clean fix. -/
theorem getHighAccuracyLocation_rule_witness :
    ((getHighAccuracyLocation true wPosMock 1000).snapshot = none ∧
      (getHighAccuracyLocation true wPosMock 1000).error =
        some ("Fake GPS detected. Action blocked.")) ∧
    (∃ snap, (getHighAccuracyLocation true cexPos8 60000).snapshot = some snap ∧
      snap.accuracyMeters = max (cexPos8.accuracy.getD 999) 0 ∧
      snap.ageSeconds = max (mkRat (60000 - cexPos8.timestampMs.getD 60000) 1000) 0 ∧
      (snap.accuracyMeters > MAX_ALLOWED_ACCURACY_METERS →
        (getHighAccuracyLocation true cexPos8 60000).error =
          some ("Move to an open area for better GPS accuracy.")) ∧
      (snap.accuracyMeters ≤ MAX_ALLOWED_ACCURACY_METERS →
        (getHighAccuracyLocation true cexPos8 60000).error = none)) :=
  ⟨(getHighAccuracyLocation_rule wPosMock 1000).1 (by decide),
    (getHighAccuracyLocation_rule cexPos8 60000).2 (by decide)⟩

/-! Analysis of the haversine distance (claim C9). -/

theorem atan2_pos {y : ℝ} (x : ℝ) (hy : 0 < y) : 0 < atan2 y x := by
  have hπ := Real.pi_pos
  unfold atan2
  split_ifs with h1 h2 h3
  · have h4 := Real.arctan_strictMono (div_pos hy h1)
    rwa [Real.arctan_zero] at h4
  · have h4 := Real.neg_pi_div_two_lt_arctan (y / x)
    linarith
  · linarith
  · linarith

theorem haversineA_self (a : Coordinates) : haversineA a a = 0 := by
  unfold haversineA toRadians
  simp [sub_self]

theorem distanceMeters_self (a : Coordinates) : distanceMeters a a = 0 := by
  unfold distanceMeters
  rw [haversineA_self, Real.sqrt_zero, sub_zero, Real.sqrt_one]
  unfold atan2
  rw [if_pos one_pos, zero_div, Real.arctan_zero]
  ring

theorem haversineA_comm (p q : Coordinates) : haversineA p q = haversineA q p := by
  unfold haversineA
  have key : ∀ u v : ℝ, Real.sin (toRadians (u - v) / 2) * Real.sin (toRadians (u - v) / 2) =
      Real.sin (toRadians (v - u) / 2) * Real.sin (toRadians (v - u) / 2) := by
    intro u v
    have h : toRadians (u - v) / 2 = -(toRadians (v - u) / 2) := by
      unfold toRadians; ring
    rw [h, Real.sin_neg]
    ring
  rw [key ((q.latitude : ℝ)) ((p.latitude : ℝ)), key ((q.longitude : ℝ)) ((p.longitude : ℝ))]
  ring

theorem distanceMeters_comm (p q : Coordinates) : distanceMeters p q = distanceMeters q p := by
  unfold distanceMeters
  rw [haversineA_comm]

theorem sq_sin_pos {t : ℝ} (h0 : t ≠ 0) (h : |t| < Real.pi) : 0 < Real.sin t * Real.sin t := by
  rcases lt_or_gt_of_ne h0 with hneg | hpos
  · have h2 : -t < Real.pi := by rw [abs_of_neg hneg] at h; exact h
    have hs : 0 < Real.sin (-t) := Real.sin_pos_of_pos_of_lt_pi (by linarith) h2
    rw [Real.sin_neg] at hs
    have hneg' : Real.sin t < 0 := by linarith
    exact mul_pos_of_neg_of_neg hneg' hneg'
  · have h2 : t < Real.pi := by rw [abs_of_pos hpos] at h; exact h
    have hs : 0 < Real.sin t := Real.sin_pos_of_pos_of_lt_pi hpos h2
    exact mul_pos hs hs

theorem abs_toRadians_half_lt_pi {v : ℝ} (h : |v| < 360) : |toRadians v / 2| < Real.pi := by
  have heq : toRadians v / 2 = v * (Real.pi / 360) := by unfold toRadians; ring
  rw [heq, abs_mul, abs_of_pos (by positivity : (0:ℝ) < Real.pi / 360)]
  calc |v| * (Real.pi / 360) < 360 * (Real.pi / 360) :=
        mul_lt_mul_of_pos_right h (by positivity)
    _ = Real.pi := by ring

theorem abs_toRadians_le_pi_div_two {v : ℝ} (h : |v| ≤ 90) : |toRadians v| ≤ Real.pi / 2 := by
  have heq : toRadians v = v * (Real.pi / 180) := by unfold toRadians; ring
  rw [heq, abs_mul, abs_of_pos (by positivity : (0:ℝ) < Real.pi / 180)]
  calc |v| * (Real.pi / 180) ≤ 90 * (Real.pi / 180) :=
        mul_le_mul_of_nonneg_right h (by positivity)
    _ = Real.pi / 2 := by ring

theorem abs_toRadians_lt_pi_div_two {v : ℝ} (h : |v| < 90) : |toRadians v| < Real.pi / 2 := by
  have heq : toRadians v = v * (Real.pi / 180) := by unfold toRadians; ring
  rw [heq, abs_mul, abs_of_pos (by positivity : (0:ℝ) < Real.pi / 180)]
  calc |v| * (Real.pi / 180) < 90 * (Real.pi / 180) :=
        mul_lt_mul_of_pos_right h (by positivity)
    _ = Real.pi / 2 := by ring

theorem toRadians_half_ne_zero {v : ℝ} (h : v ≠ 0) : toRadians v / 2 ≠ 0 := by
  have heq : toRadians v / 2 = v * (Real.pi / 360) := by unfold toRadians; ring
  rw [heq]
  exact mul_ne_zero h (by positivity)

/-- The haversine intermediate is strictly positive for genuinely distinct points:
distinct coordinates within range, not both at a pole, longitudes not 360 apart. -/
theorem haversineA_pos (p q : Coordinates)
    (hp1 : |(p.latitude : ℝ)| ≤ 90) (hq1 : |(q.latitude : ℝ)| ≤ 90)
    (hne : p ≠ q)
    (hpole : p.latitude = q.latitude → |(p.latitude : ℝ)| < 90)
    (hlng : |(p.longitude : ℝ) - (q.longitude : ℝ)| < 360) :
    0 < haversineA p q := by
  unfold haversineA
  by_cases heq : p.latitude = q.latitude
  · have hlngne : p.longitude ≠ q.longitude := by
      intro h'
      apply hne
      cases p; cases q
      simp_all
    have hql : (q.latitude : ℝ) = (p.latitude : ℝ) := by exact_mod_cast heq.symm
    have hcosp : 0 < Real.cos (toRadians (p.latitude : ℝ)) := by
      have := abs_toRadians_lt_pi_div_two (hpole heq)
      rw [abs_lt] at this
      exact Real.cos_pos_of_mem_Ioo ⟨this.1, this.2⟩
    have hcosq : 0 < Real.cos (toRadians (q.latitude : ℝ)) := by rw [hql]; exact hcosp
    have hd : (q.longitude : ℝ) - (p.longitude : ℝ) ≠ 0 := by
      refine sub_ne_zero.mpr ?_
      exact_mod_cast Ne.symm hlngne
    have habs : |(q.longitude : ℝ) - (p.longitude : ℝ)| < 360 := by
      rw [abs_sub_comm]; exact hlng
    have hsin : 0 < Real.sin (toRadians ((q.longitude : ℝ) - (p.longitude : ℝ)) / 2) *
        Real.sin (toRadians ((q.longitude : ℝ) - (p.longitude : ℝ)) / 2) :=
      sq_sin_pos (toRadians_half_ne_zero hd) (abs_toRadians_half_lt_pi habs)
    have hterm : 0 < Real.sin (toRadians ((q.longitude : ℝ) - (p.longitude : ℝ)) / 2) *
        Real.sin (toRadians ((q.longitude : ℝ) - (p.longitude : ℝ)) / 2) *
        Real.cos (toRadians (p.latitude : ℝ)) * Real.cos (toRadians (q.latitude : ℝ)) :=
      mul_pos (mul_pos hsin hcosp) hcosq
    have hfirst : 0 ≤ Real.sin (toRadians ((q.latitude : ℝ) - (p.latitude : ℝ)) / 2) *
        Real.sin (toRadians ((q.latitude : ℝ) - (p.latitude : ℝ)) / 2) := mul_self_nonneg _
    linarith
  · have hd : (q.latitude : ℝ) - (p.latitude : ℝ) ≠ 0 := by
      refine sub_ne_zero.mpr ?_
      exact_mod_cast Ne.symm heq
    rw [abs_le] at hp1 hq1
    have habs : |(q.latitude : ℝ) - (p.latitude : ℝ)| < 360 := by
      rw [abs_lt]
      constructor <;> linarith
    have hsin : 0 < Real.sin (toRadians ((q.latitude : ℝ) - (p.latitude : ℝ)) / 2) *
        Real.sin (toRadians ((q.latitude : ℝ) - (p.latitude : ℝ)) / 2) :=
      sq_sin_pos (toRadians_half_ne_zero hd) (abs_toRadians_half_lt_pi habs)
    have hcosp : 0 ≤ Real.cos (toRadians (p.latitude : ℝ)) := by
      have := abs_toRadians_le_pi_div_two (abs_le.mpr hp1)
      rw [abs_le] at this
      exact Real.cos_nonneg_of_mem_Icc ⟨this.1, this.2⟩
    have hcosq : 0 ≤ Real.cos (toRadians (q.latitude : ℝ)) := by
      have := abs_toRadians_le_pi_div_two (abs_le.mpr hq1)
      rw [abs_le] at this
      exact Real.cos_nonneg_of_mem_Icc ⟨this.1, this.2⟩
    have hsecond : 0 ≤ Real.sin (toRadians ((q.longitude : ℝ) - (p.longitude : ℝ)) / 2) *
        Real.sin (toRadians ((q.longitude : ℝ) - (p.longitude : ℝ)) / 2) *
        Real.cos (toRadians (p.latitude : ℝ)) * Real.cos (toRadians (q.latitude : ℝ)) :=
      mul_nonneg (mul_nonneg (mul_self_nonneg _) hcosp) hcosq
    linarith

/-- C9 (amended): distanceMeters vanishes on identical coordinates and is symmetric;
it is strictly positive for distinct in-range coordinates except for the degenerate
representations of one physical point: both coordinates at the same pole, or
longitudes exactly 360 degrees apart. -/
theorem distanceMeters_metric_properties (a b : Coordinates) :
    distanceMeters a a = 0 ∧
    distanceMeters a b = distanceMeters b a ∧
    (|(a.latitude : ℝ)| ≤ 90 → |(b.latitude : ℝ)| ≤ 90 →
      a ≠ b →
      (a.latitude = b.latitude → |(a.latitude : ℝ)| < 90) →
      |(a.longitude : ℝ) - (b.longitude : ℝ)| < 360 →
      0 < distanceMeters a b) := by
  refine ⟨distanceMeters_self a, distanceMeters_comm a b, ?_⟩
  intro h1 h2 h3 h4 h5
  have hA := haversineA_pos a b h1 h2 h3 h4 h5
  unfold distanceMeters EARTH_RADIUS_METERS
  have hs : 0 < Real.sqrt (haversineA a b) := Real.sqrt_pos.mpr hA
  have hc := atan2_pos (Real.sqrt (1 - haversineA a b)) hs
  have h2pos : (0:ℝ) < 2 * atan2 (Real.sqrt (haversineA a b)) (Real.sqrt (1 - haversineA a b)) := by
    linarith
  have h6 : (0:ℝ) < 6371000 := by norm_num
  exact mul_pos h6 h2pos

/-- Counterexample to C9 as stated: the two distinct in-range coordinates (90, 0)
and (90, 10) both denote the North Pole and the haversine distance between them is
exactly 0, not strictly positive. -/
theorem distance_pole_counterexample :
    (⟨90, 0⟩ : Coordinates) ≠ (⟨90, 10⟩ : Coordinates) ∧
    |(((⟨90, 0⟩ : Coordinates).latitude : ℝ))| ≤ 90 ∧
    |(((⟨90, 10⟩ : Coordinates).latitude : ℝ))| ≤ 90 ∧
    |(((⟨90, 0⟩ : Coordinates).longitude : ℝ))| ≤ 180 ∧
    |(((⟨90, 10⟩ : Coordinates).longitude : ℝ))| ≤ 180 ∧
    distanceMeters ⟨90, 0⟩ ⟨90, 10⟩ = 0 := by
  refine ⟨by decide, by push_cast; norm_num, by push_cast; norm_num,
    by push_cast; norm_num, by push_cast; norm_num, ?_⟩
  have hav : haversineA ⟨90, 0⟩ ⟨90, 10⟩ = 0 := by
    unfold haversineA
    have h90 : toRadians (((90 : ℚ) : ℝ)) = Real.pi / 2 := by
      unfold toRadians; push_cast; ring
    show Real.sin (toRadians (((90:ℚ):ℝ) - ((90:ℚ):ℝ)) / 2) *
        Real.sin (toRadians (((90:ℚ):ℝ) - ((90:ℚ):ℝ)) / 2) +
      Real.sin (toRadians (((10:ℚ):ℝ) - ((0:ℚ):ℝ)) / 2) *
        Real.sin (toRadians (((10:ℚ):ℝ) - ((0:ℚ):ℝ)) / 2) *
        Real.cos (toRadians ((90:ℚ):ℝ)) * Real.cos (toRadians ((90:ℚ):ℝ)) = 0
    rw [h90, Real.cos_pi_div_two, sub_self]
    have h0 : toRadians 0 / 2 = 0 := by unfold toRadians; ring
    rw [h0, Real.sin_zero]
    ring
  unfold distanceMeters
  rw [hav, Real.sqrt_zero, sub_zero, Real.sqrt_one]
  unfold atan2
  rw [if_pos one_pos, zero_div, Real.arctan_zero]
  ring

/-- Witness for C9 at two genuinely distinct points. -/
theorem distanceMeters_metric_properties_witness :
    |(((⟨0, 0⟩ : Coordinates).latitude : ℝ))| ≤ 90 ∧
    |(((⟨10, 20⟩ : Coordinates).latitude : ℝ))| ≤ 90 ∧
    (⟨0, 0⟩ : Coordinates) ≠ (⟨10, 20⟩ : Coordinates) ∧
    0 < distanceMeters ⟨0, 0⟩ ⟨10, 20⟩ :=
  ⟨by push_cast; norm_num, by push_cast; norm_num, by decide,
    (distanceMeters_metric_properties ⟨0, 0⟩ ⟨10, 20⟩).2.2
      (by push_cast; norm_num) (by push_cast; norm_num) (by decide)
      (fun h => absurd h (by decide)) (by push_cast; norm_num)⟩

end Civic
